import Mathlib

/-!
A shallow embedding of `src/artifact_reporter.cpp` (the single source file of
the SubT-Object-Detection repository) together with proofs about its
behaviour.

Modelling conventions:

* Machine integers (`size_t`, `uint32`, the darknet box bounds) are modelled
  as `Nat`; none of the quantities involved can overflow or go negative in
  the scenarios considered, and the C++ loops `for (x = lo; x <= hi; ++x)`
  are modelled with trip count `hi + 1 - lo`, which is the exact iteration
  count of the C++ loop over natural numbers (also when `hi < lo`, where
  both perform zero iterations).
* IEEE-754 scalars (`float`/`double`) are modelled by the inductive type `F`
  below: a finite value is idealized as an exact rational, and the
  non-finite values `+inf`, `-inf` and `NaN` are explicit constructors,
  because the finiteness filtering in `GetCentroid` is precisely about them.
  `NaN` is absorbing for addition and division, as in IEEE-754.
* External collaborators (the PCL byte-to-point conversion, the tf2
  transform buffer, the `ToTransformStamped` helper whose header is not part
  of the repository, and protobuf parse/serialize success) are parameters of
  the functions that call them.
* The C++ global mutable state (`artifact_to_report`,
  `have_an_artifact_to_report`) is threaded explicitly as a value of type
  `RState`.
* `std::vector::operator[]` performs no bounds check; reading past the end
  is undefined behaviour.  The embedding makes the read total with
  `List.getD _ 0` and separately records the list of indices the copy loop
  reads (`cropReadIndices`), so that out-of-range accesses are observable.
-/

/-- Model of an IEEE-754 scalar: a finite value (idealized as an exact
rational), positive infinity, negative infinity, or NaN. -/
inductive F where
  | fin (q : ℚ)
  | pinf
  | ninf
  | nan
  deriving DecidableEq

/-- C `isinf`: true exactly on the two infinities; in particular
`isinf NaN = false`, which is what lets NaN slip through the filter in
`GetCentroid`. -/
def F.isinf : F → Bool
  | .pinf => true
  | .ninf => true
  | _ => false

/-- IEEE-754 addition on the model (finite arithmetic idealized as exact). -/
def F.add : F → F → F
  | .nan, _ => .nan
  | _, .nan => .nan
  | .pinf, .ninf => .nan
  | .ninf, .pinf => .nan
  | .pinf, _ => .pinf
  | _, .pinf => .pinf
  | .ninf, _ => .ninf
  | _, .ninf => .ninf
  | .fin a, .fin b => .fin (a + b)

/-- Division of a scalar by a point count, as used by
`pcl::CentroidPoint::get` (the count is positive whenever this is called). -/
def F.divNat (v : F) (n : ℕ) : F :=
  if n = 0 then .nan
  else
    match v with
    | .fin q => .fin (q / (n : ℚ))
    | .pinf => .pinf
    | .ninf => .ninf
    | .nan => .nan

/-- A 3-D point (`pcl::PointXYZ` / `geometry_msgs::Point`). -/
structure P3 where
  x : F
  y : F
  z : F
  deriving DecidableEq

/-- `sensor_msgs::PointCloud2`: a structured point cloud.  The header is
reduced to its frame id and the field schema to a list of field names; the
byte buffer `data` is a list of byte values. -/
structure PointCloud where
  header_frame : String
  fields : List String
  is_bigendian : Bool
  point_step : ℕ
  row_step : ℕ
  is_dense : Bool
  height : ℕ
  width : ℕ
  data : List ℕ
  deriving DecidableEq

/-- `darknet_ros_msgs::BoundingBox`: a detector label and pixel bounds. -/
structure BoundingBox where
  Class : String
  xmin : ℕ
  ymin : ℕ
  xmax : ℕ
  ymax : ℕ
  deriving DecidableEq

/-- The byte indices that the copy loop of `CropPointCloud` reads from
`original_pc->data`, in read order: for `r` from `ymin` to `ymax`, for `c`
from `xmin` to `xmax`, the `point_step` indices starting at
`r * row_step + c * point_step`. -/
def cropReadIndices (original_pc : PointCloud) (bb : BoundingBox) : List ℕ :=
  (List.range' bb.ymin (bb.ymax + 1 - bb.ymin)).flatMap (fun r =>
    (List.range' bb.xmin (bb.xmax + 1 - bb.xmin)).flatMap (fun c =>
      List.range' (r * original_pc.row_step + c * original_pc.point_step)
        original_pc.point_step))

/-- `CropPointCloud`: builds a new cloud whose metadata is copied from the
original except for `height`, `width` and `row_step`, and whose buffer is
assembled by the nested copy loops.  The source performs no bounds check of
any kind; an index past the end of the buffer is undefined behaviour in C++
and is modelled by the total read `List.getD _ 0`. -/
def CropPointCloud (original_pc : PointCloud) (bb : BoundingBox) : PointCloud :=
  { header_frame := original_pc.header_frame
    fields := original_pc.fields
    is_bigendian := original_pc.is_bigendian
    point_step := original_pc.point_step
    is_dense := original_pc.is_dense
    height := bb.ymax - bb.ymin + 1
    width := bb.xmax - bb.xmin + 1
    row_step := (bb.xmax - bb.xmin + 1) * original_pc.point_step
    data := (cropReadIndices original_pc bb).map (fun i => original_pc.data.getD i 0) }

/-- The `point_step` bytes of the point at pixel column `c`, row `r` of a
structured cloud. -/
def pointAt (pc : PointCloud) (c r : ℕ) : List ℕ :=
  (pc.data.drop (r * pc.row_step + c * pc.point_step)).take pc.point_step

/-- The accumulator inside `pcl::CentroidPoint<pcl::PointXYZ>`: coordinate
sums and the number of added points. -/
structure CentAcc where
  sx : F
  sy : F
  sz : F
  count : ℕ
  deriving DecidableEq

/-- One iteration of the accumulation loop in `GetCentroid`: a point is
skipped iff `isinf` holds of one of its coordinates (NaN is not skipped),
otherwise it is added to the centroid accumulator. -/
def centroidAddPoint (acc : CentAcc) (p : P3) : CentAcc :=
  if p.x.isinf || p.y.isinf || p.z.isinf then acc
  else
    { sx := acc.sx.add p.x
      sy := acc.sy.add p.y
      sz := acc.sz.add p.z
      count := acc.count + 1 }

/-- `pcl::CentroidPoint::get`: with a positive count the coordinate sums are
divided by the count; with zero added points the output point is left
untouched, and a fresh `pcl::PointXYZ` defaults to `(0,0,0)`. -/
def centroidGet (acc : CentAcc) : P3 :=
  if acc.count = 0 then { x := F.fin 0, y := F.fin 0, z := F.fin 0 }
  else
    { x := acc.sx.divNat acc.count
      y := acc.sy.divNat acc.count
      z := acc.sz.divNat acc.count }

/-- The point-level core of `GetCentroid`: fold the accumulation loop over
the decoded points of the cloud, then extract the centroid. -/
def getCentroidPoint (points : List P3) : P3 :=
  centroidGet (points.foldl centroidAddPoint
    { sx := F.fin 0, sy := F.fin 0, sz := F.fin 0, count := 0 })

/-- `geometry_msgs::PoseStamped`, reduced to the parts the program writes:
frame id, position, and the (always-identity) orientation quaternion.  The
capture timestamp (`ros::Time::now()`) is wall-clock input and is omitted;
no claim depends on it. -/
structure PoseStamped where
  frame_id : String
  position : P3
  orientation : F × F × F × F
  deriving DecidableEq

/-- `GetCentroid`: convert the cloud to PCL points (the byte-to-point
conversion `pcl::fromPCLPointCloud2` is an external library call, passed in
as `decode`), accumulate all points that pass the `isinf` filter, extract
the centroid, and wrap it as an identity-orientation pose in the camera
frame. -/
def GetCentroid (decode : PointCloud → List P3) (camera_frame : String)
    (original_pc : PointCloud) : PoseStamped :=
  let location := getCentroidPoint (decode original_pc)
  { frame_id := camera_frame
    position := location
    orientation := (F.fin 0, F.fin 0, F.fin 0, F.fin 1) }

/-- The artifact types this node can classify (the values of
`subt::ArtifactType` actually used by the source). -/
inductive ArtifactType where
  | TYPE_BACKPACK
  | TYPE_RESCUE_RANDY
  | TYPE_PHONE
  | TYPE_EXTINGUISHER
  | TYPE_DRILL
  deriving DecidableEq

/-- The `Artifact` struct: type and location of the most recent detection. -/
structure Artifact where
  type : ArtifactType
  location : P3
  deriving DecidableEq

/-- The global mutable reporting state of the node:
`artifact_to_report` and `have_an_artifact_to_report`. -/
structure RState where
  artifact_to_report : Artifact
  have_an_artifact_to_report : Bool
  deriving DecidableEq

/-- A message handed to `CommsClient::SendTo`: either a successfully
serialized artifact record, or the buffer left behind by a failed
`SerializeToString` call (whose contents are unspecified). -/
inductive WireMsg where
  | artifactMsg (type : ArtifactType) (x y z : F)
  | corrupt
  deriving DecidableEq

/-- The observable outcome of one `ReportArtifacts` timer tick: the messages
handed to the comms client, whether a serialization error was logged, and
the reporting state afterwards. -/
structure TickOut where
  sent : List WireMsg
  errorLogged : Bool
  state : RState
  deriving DecidableEq

/-- `ReportArtifacts`: returns immediately when there is no pending
artifact; otherwise it builds the wire record from the pending artifact and
hands it to `SendTo`.  Note that a failed `SerializeToString` only logs an
error: there is no early return, so `SendTo` is still called, with the
unspecified buffer (modelled as `WireMsg.corrupt`).  The pending flag is
never modified here.  `serializeOk` is the protobuf serialization outcome,
an external input. -/
def ReportArtifacts (st : RState) (serializeOk : Bool) : TickOut :=
  if !st.have_an_artifact_to_report then
    { sent := [], errorLogged := false, state := st }
  else
    let location := st.artifact_to_report.location
    let msg := WireMsg.artifactMsg st.artifact_to_report.type location.x location.y location.z
    if serializeOk then { sent := [msg], errorLogged := false, state := st }
    else { sent := [WireMsg.corrupt], errorLogged := true, state := st }

/-- The fields of `subt::msgs::ArtifactScore` that the callback reads: the
nested pose position. -/
structure ArtifactScore where
  x : F
  y : F
  z : F
  deriving DecidableEq

/-- The observable outcome of one `BaseStationCallback` invocation. -/
structure CallbackOut where
  state : RState
  errorLogged : Bool
  ackLocationLogged : P3
  deriving DecidableEq

/-- `BaseStationCallback`: `parsed` is the outcome of
`ArtifactScore::ParseFromString` on the inbound payload (`none` on a
deserialization failure, in which case the message object keeps its
zero-valued default fields).  A parse failure logs an error but does
NOT return: the code falls through, logs the (default) location as received,
and unconditionally clears `have_an_artifact_to_report`. -/
def BaseStationCallback (st : RState) (parsed : Option ArtifactScore) : CallbackOut :=
  let res := parsed.getD { x := F.fin 0, y := F.fin 0, z := F.fin 0 }
  { state := { st with have_an_artifact_to_report := false }
    errorLogged := parsed.isNone
    ackLocationLogged := { x := res.x, y := res.y, z := res.z } }

/-- The result type of the external `ToTransformStamped` helper (its header
is outside the repository); the value is never consumed by the source. -/
structure TransformStamped where
  child_frame_id : String
  deriving DecidableEq

/-- The chain of five exact-match `if` blocks at the end of the per-box loop
in `ProcessDetection`: each match overwrites the whole artifact (type and
location from `scoring_pose`), sets the pending flag, and logs a
"Detected a ..." event (with the source's spelling).  An unmatched label
falls through all five tests. -/
def classifyDetection (box : BoundingBox) (scoring_pose : PoseStamped) (st : RState) :
    RState × List String :=
  let r0 := (st, ([] : List String))
  let r1 :=
    if box.Class = "Backpack" then
      ({ artifact_to_report := { type := ArtifactType.TYPE_BACKPACK
                                 location := scoring_pose.position }
         have_an_artifact_to_report := true }, r0.2 ++ ["Detected a backapack!"])
    else r0
  let r2 :=
    if box.Class = "Survivor" then
      ({ artifact_to_report := { type := ArtifactType.TYPE_RESCUE_RANDY
                                 location := scoring_pose.position }
         have_an_artifact_to_report := true }, r1.2 ++ ["Detected a survivor!"])
    else r1
  let r3 :=
    if box.Class = "Cell Phone" then
      ({ artifact_to_report := { type := ArtifactType.TYPE_PHONE
                                 location := scoring_pose.position }
         have_an_artifact_to_report := true }, r2.2 ++ ["Detected a cell phone!"])
    else r2
  let r4 :=
    if box.Class = "Fire Extinguisher" then
      ({ artifact_to_report := { type := ArtifactType.TYPE_EXTINGUISHER
                                 location := scoring_pose.position }
         have_an_artifact_to_report := true }, r3.2 ++ ["Detected a fire extinguisher!"])
    else r3
  let r5 :=
    if box.Class = "Drill" then
      ({ artifact_to_report := { type := ArtifactType.TYPE_DRILL
                                 location := scoring_pose.position }
         have_an_artifact_to_report := true }, r4.2 ++ ["Detected a drill!"])
    else r4
  r5

/-- The observable outcome of one `ProcessDetection` callback: the reporting
state afterwards, the "Detected ..." events logged, and whether an uncaught
`tf2::TransformException` escaped the callback (aborting the loop). -/
structure PDOut where
  state : RState
  logs : List String
  pipelineAborted : Bool
  deriving DecidableEq

/-- `ProcessDetection`: for each bounding box, crop the synchronized cloud,
take the centroid, call `ToTransformStamped` (result bound but never used),
transform the centroid into the artifact-origin frame via the tf buffer
(`tf` models `tf_buffer.transform` with its 1-second timeout, failing with
the exception message), and run the label-match chain.  There is no
`try`/`catch`: a transform failure propagates out of the loop, so the
remaining boxes of the same message are not processed (`pipelineAborted`).
`decode`, `tf` and `tts` are the external collaborators; `camera_frame`,
`object_frame` and `artifact_origin_frame` are the configuration globals. -/
def ProcessDetection (decode : PointCloud → List P3)
    (tf : PoseStamped → String → Except String PoseStamped)
    (tts : PoseStamped → String → String → TransformStamped)
    (camera_frame object_frame artifact_origin_frame : String)
    (cloud_msg : PointCloud) (st : RState) : List BoundingBox → PDOut
  | [] => { state := st, logs := [], pipelineAborted := false }
  | box :: rest =>
    let cropped_pc := CropPointCloud cloud_msg box
    let centroid := GetCentroid decode camera_frame cropped_pc
    let tf_stamped := tts centroid camera_frame object_frame
    match tf centroid artifact_origin_frame with
    | Except.error _ => { state := st, logs := [], pipelineAborted := true }
    | Except.ok scoring_pose =>
      let step := classifyDetection box scoring_pose st
      let out := ProcessDetection decode tf tts camera_frame object_frame
        artifact_origin_frame cloud_msg step.1 rest
      { state := out.state, logs := step.2 ++ out.logs, pipelineAborted := out.pipelineAborted }

/-! ## General list lemmas

Extraction lemmas for flattened nested loops whose inner bodies produce
blocks of a constant length. -/

theorem length_flatMap_const {α β : Type} (l : List α) (f : α → List β) (B : ℕ)
    (h : ∀ a ∈ l, (f a).length = B) : (l.flatMap f).length = l.length * B := by
  induction l with
  | nil => simp
  | cons a t ih =>
    rw [List.flatMap_cons, List.length_append, h a (by simp),
      ih (fun b hb => h b (by simp [hb])), List.length_cons, Nat.succ_mul, Nat.add_comm]

theorem drop_flatMap_const {α β : Type} (l : List α) (f : α → List β) (B : ℕ)
    (h : ∀ a ∈ l, (f a).length = B) (j : ℕ) (hj : j ≤ l.length) :
    (l.flatMap f).drop (j * B) = (l.drop j).flatMap f := by
  induction j generalizing l with
  | zero => simp
  | succ n ih =>
    match l with
    | [] => simp at hj
    | a :: t =>
      rw [List.flatMap_cons, Nat.succ_mul, Nat.add_comm, ← List.drop_drop,
        List.drop_left' (h a (by simp)), List.drop_succ_cons]
      exact ih t (fun b hb => h b (by simp [hb])) (by simpa using hj)

theorem map_getD_range' (l : List ℕ) (d s n : ℕ) (h : s + n ≤ l.length) :
    (List.range' s n).map (fun i => l.getD i d) = (l.drop s).take n := by
  induction n generalizing s with
  | zero => simp
  | succ m ih =>
    have hs : s < l.length := by omega
    rw [List.range'_succ, List.map_cons, List.drop_eq_getElem_cons hs,
      List.take_succ_cons, List.getD_eq_getElem l d hs, ih (s + 1) (by omega)]

/-! ## Lemmas about the centroid accumulation loop -/

theorem foldl_centroidAddPoint_skips_inf (ps : List P3)
    (h : ∀ p ∈ ps, (p.x.isinf || p.y.isinf || p.z.isinf) = true) (acc : CentAcc) :
    ps.foldl centroidAddPoint acc = acc := by
  induction ps generalizing acc with
  | nil => rfl
  | cons p t ih =>
    rw [List.foldl_cons]
    rw [show centroidAddPoint acc p = acc by simp [centroidAddPoint, h p (by simp)]]
    exact ih (fun q hq => h q (by simp [hq])) acc

theorem foldl_centroidAddPoint_replicate (a b c : ℚ) (n : ℕ) (s1 s2 s3 : ℚ) (m : ℕ) :
    (List.replicate n { x := F.fin a, y := F.fin b, z := F.fin c : P3 }).foldl
      centroidAddPoint { sx := F.fin s1, sy := F.fin s2, sz := F.fin s3, count := m }
    = { sx := F.fin (s1 + n * a), sy := F.fin (s2 + n * b), sz := F.fin (s3 + n * c),
        count := m + n } := by
  induction n generalizing s1 s2 s3 m with
  | zero => simp
  | succ k ih =>
    rw [List.replicate_succ, List.foldl_cons]
    rw [show centroidAddPoint
        { sx := F.fin s1, sy := F.fin s2, sz := F.fin s3, count := m }
        { x := F.fin a, y := F.fin b, z := F.fin c }
      = { sx := F.fin (s1 + a), sy := F.fin (s2 + b), sz := F.fin (s3 + c), count := m + 1 }
      by simp [centroidAddPoint, F.isinf, F.add]]
    rw [ih]
    congr 1 <;> first
    | · congr 1; push_cast; ring
    | omega

/-! ## Claims about `GetCentroid` (C2, C5) -/

/-- C2 counterexample: the claim says a point with a NaN coordinate is
rejected from the centroid, so that removing a non-finite point never
changes the computed centroid.  The code only tests `isinf`, so the NaN
point `(NaN, 0, 0)` is accumulated: removing it from the cloud
`[(1,1,1), (NaN,0,0)]` does change the computed centroid. -/
theorem getCentroid_nan_included_cex :
    getCentroidPoint [{ x := F.fin 1, y := F.fin 1, z := F.fin 1 },
                      { x := F.nan, y := F.fin 0, z := F.fin 0 }]
    ≠ getCentroidPoint [{ x := F.fin 1, y := F.fin 1, z := F.fin 1 }] := by
  intro h
  have hx := congrArg P3.x h
  simp [getCentroidPoint, centroidAddPoint, centroidGet, F.isinf, F.add, F.divNat] at hx

/-- C2 (amended): `GetCentroid` computes the arithmetic mean of x, y, z over
exactly those points with no infinite coordinate (the `isinf` test); points
with NaN coordinates are NOT rejected.  Consequently removing an
infinite-coordinate point never changes the computed centroid, and the
centroid of a cloud of `n > 0` identical finite points equals that point. -/
theorem getCentroid_mean_over_noninf (ps qs : List P3) (q : P3)
    (hq : (q.x.isinf || q.y.isinf || q.z.isinf) = true)
    (a b c : ℚ) (n : ℕ) (hn : 0 < n) :
    getCentroidPoint (ps ++ q :: qs) = getCentroidPoint (ps ++ qs) ∧
    getCentroidPoint (List.replicate n { x := F.fin a, y := F.fin b, z := F.fin c })
      = { x := F.fin a, y := F.fin b, z := F.fin c } := by
  constructor
  · unfold getCentroidPoint
    rw [List.foldl_append, List.foldl_append, List.foldl_cons]
    rw [show centroidAddPoint (List.foldl centroidAddPoint
        { sx := F.fin 0, sy := F.fin 0, sz := F.fin 0, count := 0 } ps) q
      = List.foldl centroidAddPoint
        { sx := F.fin 0, sy := F.fin 0, sz := F.fin 0, count := 0 } ps
      by simp [centroidAddPoint, hq]]
  · obtain ⟨k, rfl⟩ : ∃ k, n = k + 1 := ⟨n - 1, by omega⟩
    rw [getCentroidPoint, foldl_centroidAddPoint_replicate, centroidGet]
    have hk : ((k : ℚ) + 1) ≠ 0 := by positivity
    simp only [Nat.zero_add, Nat.add_eq_zero, and_false, if_false, F.divNat,
      Nat.add_eq_zero, one_ne_zero, if_false]
    congr 1 <;> · congr 1; push_cast; rw [zero_add, mul_div_cancel_left₀ _ hk]

/-- Witness for `getCentroid_mean_over_noninf` at a concrete input. -/
theorem getCentroid_mean_over_noninf_witness :
    (((P3.mk F.pinf (F.fin 0) (F.fin 0)).x.isinf
        || (P3.mk F.pinf (F.fin 0) (F.fin 0)).y.isinf
        || (P3.mk F.pinf (F.fin 0) (F.fin 0)).z.isinf) = true) ∧ 0 < 3 ∧
    (getCentroidPoint [{ x := F.pinf, y := F.fin 0, z := F.fin 0 }] = getCentroidPoint [] ∧
     getCentroidPoint (List.replicate 3 { x := F.fin 2, y := F.fin 2, z := F.fin 2 })
       = { x := F.fin 2, y := F.fin 2, z := F.fin 2 }) :=
  ⟨by decide, by decide,
    getCentroid_mean_over_noninf [] [] (P3.mk F.pinf (F.fin 0) (F.fin 0)) (by decide)
      2 2 2 3 (by decide)⟩

/-- C5 (amended): `GetCentroid` does not signal any error when no point
qualifies.  When every decoded point has an infinite coordinate, the
accumulator stays empty and the returned position is the untouched
untouched default point `(0, 0, 0)`; the detection is not dropped. -/
theorem getCentroid_empty_returns_zero (ps : List P3)
    (h : ∀ p ∈ ps, (p.x.isinf || p.y.isinf || p.z.isinf) = true) :
    getCentroidPoint ps = { x := F.fin 0, y := F.fin 0, z := F.fin 0 } := by
  rw [getCentroidPoint, foldl_centroidAddPoint_skips_inf ps h]
  rfl

/-- Witness for `getCentroid_empty_returns_zero` at a concrete input. -/
theorem getCentroid_empty_returns_zero_witness :
    (∀ p ∈ [{ x := F.pinf, y := F.fin 0, z := F.fin 0 : P3 },
            { x := F.fin 0, y := F.ninf, z := F.fin 0 : P3 }],
      (p.x.isinf || p.y.isinf || p.z.isinf) = true) ∧
    getCentroidPoint [{ x := F.pinf, y := F.fin 0, z := F.fin 0 },
                      { x := F.fin 0, y := F.ninf, z := F.fin 0 }]
      = { x := F.fin 0, y := F.fin 0, z := F.fin 0 } :=
  ⟨by decide,
    getCentroid_empty_returns_zero
      [{ x := F.pinf, y := F.fin 0, z := F.fin 0 },
       { x := F.fin 0, y := F.ninf, z := F.fin 0 }] (by decide)⟩

/-! ## Claims about the Reporter and the base-station callback (C3, C4, C7) -/

/-- C3: on every timer tick, `ReportArtifacts` never sends while
`have_an_artifact_to_report = false`; while the flag is true it hands
exactly one message to the comms client, leaves the whole reporting state
(and in particular the flag) unchanged, and — whenever serialization
succeeds — that message is the serialized pending artifact.  Hence the same
pending artifact is retransmitted on every tick until the flag is cleared by
an acknowledgment or the artifact is overwritten by a newer detection. -/
theorem reportArtifacts_tick_protocol (st : RState) (serializeOk : Bool) :
    (ReportArtifacts st serializeOk).state = st ∧
    (st.have_an_artifact_to_report = false → (ReportArtifacts st serializeOk).sent = []) ∧
    (st.have_an_artifact_to_report = true →
      (ReportArtifacts st serializeOk).sent.length = 1 ∧
      (ReportArtifacts st serializeOk).state.have_an_artifact_to_report = true ∧
      (serializeOk = true →
        (ReportArtifacts st serializeOk).sent
          = [WireMsg.artifactMsg st.artifact_to_report.type
              st.artifact_to_report.location.x st.artifact_to_report.location.y
              st.artifact_to_report.location.z])) := by
  cases h : st.have_an_artifact_to_report <;> cases serializeOk <;>
    simp [ReportArtifacts, h]

/-- Witness for `reportArtifacts_tick_protocol` at a concrete pending state. -/
theorem reportArtifacts_tick_protocol_witness :
    (ReportArtifacts
      { artifact_to_report := { type := ArtifactType.TYPE_DRILL
                                location := { x := F.fin 5, y := F.fin 5, z := F.fin 1 } }
        have_an_artifact_to_report := true } true).sent
      = [WireMsg.artifactMsg ArtifactType.TYPE_DRILL (F.fin 5) (F.fin 5) (F.fin 1)] ∧
    (ReportArtifacts
      { artifact_to_report := { type := ArtifactType.TYPE_DRILL
                                location := { x := F.fin 5, y := F.fin 5, z := F.fin 1 } }
        have_an_artifact_to_report := true } true).state.have_an_artifact_to_report = true :=
  ⟨((reportArtifacts_tick_protocol
      { artifact_to_report := { type := ArtifactType.TYPE_DRILL
                                location := { x := F.fin 5, y := F.fin 5, z := F.fin 1 } }
        have_an_artifact_to_report := true } true).2.2 rfl).2.2 rfl,
   ((reportArtifacts_tick_protocol
      { artifact_to_report := { type := ArtifactType.TYPE_DRILL
                                location := { x := F.fin 5, y := F.fin 5, z := F.fin 1 } }
        have_an_artifact_to_report := true } true).2.2 rfl).2.1⟩

/-- C4 (code bug): on a payload that fails to deserialize, the claim (and
the spec) say the handler logs an error and leaves all state unchanged.
The code does log the error, but there is no early return: the handler falls
through and unconditionally clears `have_an_artifact_to_report`, so a
malformed inbound message destroys a pending, not-yet-acknowledged
artifact.  Evaluated here at a concrete pending state. -/
theorem baseStationCallback_malformed_clears_pending_bug :
    (BaseStationCallback
      { artifact_to_report := { type := ArtifactType.TYPE_DRILL
                                location := { x := F.fin 1, y := F.fin 2, z := F.fin 3 } }
        have_an_artifact_to_report := true } none).errorLogged = true ∧
    (BaseStationCallback
      { artifact_to_report := { type := ArtifactType.TYPE_DRILL
                                location := { x := F.fin 1, y := F.fin 2, z := F.fin 3 } }
        have_an_artifact_to_report := true } none).state.have_an_artifact_to_report = false :=
  ⟨rfl, rfl⟩

/-- C7 (code bug): on a tick where serializing the pending artifact fails,
the claim (and the spec) say the send is skipped — no message is handed to
the communication substrate.  The code logs the error but has no early
return, so `SendTo` is still called with the unspecified buffer; the flag
does remain set.  Evaluated at a concrete pending state. -/
theorem reportArtifacts_serialize_failure_still_sends_bug :
    (ReportArtifacts
      { artifact_to_report := { type := ArtifactType.TYPE_PHONE
                                location := { x := F.fin 1, y := F.fin 2, z := F.fin 3 } }
        have_an_artifact_to_report := true } false).sent = [WireMsg.corrupt] ∧
    (ReportArtifacts
      { artifact_to_report := { type := ArtifactType.TYPE_PHONE
                                location := { x := F.fin 1, y := F.fin 2, z := F.fin 3 } }
        have_an_artifact_to_report := true } false).errorLogged = true ∧
    (ReportArtifacts
      { artifact_to_report := { type := ArtifactType.TYPE_PHONE
                                location := { x := F.fin 1, y := F.fin 2, z := F.fin 3 } }
        have_an_artifact_to_report := true } false).state.have_an_artifact_to_report = true :=
  ⟨rfl, rfl, rfl⟩

/-! ## Claims about `ProcessDetection` (C5, C6, C9, C10) -/

/-- C9: a bounding box whose label matches none of the five vocabulary
strings exactly is ignored: processing it (when the transform succeeds, so
that the box's processing runs to completion) changes neither
`artifact_to_report` nor `have_an_artifact_to_report`, raises no error and
logs no "Detected ..." event — processing the remaining boxes proceeds as if
the box were absent. -/
theorem processDetection_unmatched_label_noop
    (decode : PointCloud → List P3) (tf : PoseStamped → String → Except String PoseStamped)
    (tts : PoseStamped → String → String → TransformStamped)
    (camera_frame object_frame artifact_origin_frame : String)
    (cloud_msg : PointCloud) (st : RState) (box : BoundingBox) (rest : List BoundingBox)
    (h1 : box.Class ≠ "Backpack") (h2 : box.Class ≠ "Survivor")
    (h3 : box.Class ≠ "Cell Phone") (h4 : box.Class ≠ "Fire Extinguisher")
    (h5 : box.Class ≠ "Drill") (sp : PoseStamped)
    (htf : tf (GetCentroid decode camera_frame (CropPointCloud cloud_msg box))
      artifact_origin_frame = Except.ok sp) :
    ProcessDetection decode tf tts camera_frame object_frame artifact_origin_frame
      cloud_msg st (box :: rest)
    = ProcessDetection decode tf tts camera_frame object_frame artifact_origin_frame
      cloud_msg st rest := by
  simp only [ProcessDetection, htf]
  simp [classifyDetection, h1, h2, h3, h4, h5]

/-- Witness for `processDetection_unmatched_label_noop` at a concrete
input with the unrecognized label "Rope". -/
theorem processDetection_unmatched_label_noop_witness :
    ProcessDetection (fun _ => []) (fun p _ => Except.ok p)
      (fun _ _ _ => { child_frame_id := ("cf") }) ("cam") ("obj") ("artifact_origin")
      { header_frame := ("cam"), fields := ["x"], is_bigendian := false, point_step := 1,
        row_step := 1, is_dense := false, height := 1, width := 1, data := [0] }
      { artifact_to_report := { type := ArtifactType.TYPE_BACKPACK
                                location := { x := F.fin 0, y := F.fin 0, z := F.fin 0 } }
        have_an_artifact_to_report := false }
      [{ Class := ("Rope"), xmin := 0, ymin := 0, xmax := 0, ymax := 0 }]
    = ProcessDetection (fun _ => []) (fun p _ => Except.ok p)
      (fun _ _ _ => { child_frame_id := ("cf") }) ("cam") ("obj") ("artifact_origin")
      { header_frame := ("cam"), fields := ["x"], is_bigendian := false, point_step := 1,
        row_step := 1, is_dense := false, height := 1, width := 1, data := [0] }
      { artifact_to_report := { type := ArtifactType.TYPE_BACKPACK
                                location := { x := F.fin 0, y := F.fin 0, z := F.fin 0 } }
        have_an_artifact_to_report := false }
      [] :=
  processDetection_unmatched_label_noop (fun _ => []) (fun p _ => Except.ok p)
    (fun _ _ _ => { child_frame_id := ("cf") }) ("cam") ("obj") ("artifact_origin")
    { header_frame := ("cam"), fields := ["x"], is_bigendian := false, point_step := 1,
      row_step := 1, is_dense := false, height := 1, width := 1, data := [0] }
    { artifact_to_report := { type := ArtifactType.TYPE_BACKPACK
                              location := { x := F.fin 0, y := F.fin 0, z := F.fin 0 } }
      have_an_artifact_to_report := false }
    { Class := ("Rope"), xmin := 0, ymin := 0, xmax := 0, ymax := 0 } []
    (by decide) (by decide) (by decide) (by decide) (by decide) _ rfl

/-- C10: the stored artifact state (and the logs and abort flag) produced by
`ProcessDetection` are independent of the `object_frame` global and of the
`ToTransformStamped` collaborator: the `tf_stamped` value computed from them
is never consumed downstream, so two runs differing only in those inputs
produce identical results. -/
theorem processDetection_object_frame_independent
    (decode : PointCloud → List P3) (tf : PoseStamped → String → Except String PoseStamped)
    (tts1 tts2 : PoseStamped → String → String → TransformStamped)
    (camera_frame artifact_origin_frame object_frame1 object_frame2 : String)
    (cloud_msg : PointCloud) (st : RState) (boxes : List BoundingBox) :
    ProcessDetection decode tf tts1 camera_frame object_frame1 artifact_origin_frame
      cloud_msg st boxes
    = ProcessDetection decode tf tts2 camera_frame object_frame2 artifact_origin_frame
      cloud_msg st boxes := by
  induction boxes generalizing st with
  | nil => rfl
  | cons box rest ih =>
    simp only [ProcessDetection]
    cases htf : tf (GetCentroid decode camera_frame (CropPointCloud cloud_msg box))
      artifact_origin_frame with
    | error e => simp [htf]
    | ok sp => simp [htf, ih]

/-- C6 counterexample: the claim says that when the transform fails for one
bounding box, that box is logged and skipped and every other box in the set
is still processed.  In the code there is no `try`/`catch`, so the exception
aborts the whole loop: with two boxes where the transform fails on the
first, the second box (a valid "Drill" detection, which on its own would set
the pending flag, as the second conjunct shows) is never processed, nothing
is logged, and the state is unchanged. -/
theorem processDetection_tf_abort_cex :
    (ProcessDetection
      (fun pc => if pc.width = 1 then [{ x := F.pinf, y := F.fin 0, z := F.fin 0 }]
                 else [{ x := F.nan, y := F.nan, z := F.nan }])
      (fun p _ => match p.position.x with
                  | F.fin _ => Except.error ("transform unavailable")
                  | _ => Except.ok p)
      (fun _ _ _ => { child_frame_id := ("cf") }) ("cam") ("obj") ("artifact_origin")
      { header_frame := ("cam"), fields := ["x"], is_bigendian := false, point_step := 1,
        row_step := 2, is_dense := false, height := 1, width := 2, data := [5, 6] }
      { artifact_to_report := { type := ArtifactType.TYPE_PHONE
                                location := { x := F.fin 4, y := F.fin 4, z := F.fin 4 } }
        have_an_artifact_to_report := false }
      [{ Class := ("Backpack"), xmin := 0, ymin := 0, xmax := 0, ymax := 0 },
       { Class := ("Drill"), xmin := 0, ymin := 0, xmax := 1, ymax := 0 }]
    = { state := { artifact_to_report := { type := ArtifactType.TYPE_PHONE
                                           location := { x := F.fin 4, y := F.fin 4, z := F.fin 4 } }
                   have_an_artifact_to_report := false }
        logs := [], pipelineAborted := true }) ∧
    (ProcessDetection
      (fun pc => if pc.width = 1 then [{ x := F.pinf, y := F.fin 0, z := F.fin 0 }]
                 else [{ x := F.nan, y := F.nan, z := F.nan }])
      (fun p _ => match p.position.x with
                  | F.fin _ => Except.error ("transform unavailable")
                  | _ => Except.ok p)
      (fun _ _ _ => { child_frame_id := ("cf") }) ("cam") ("obj") ("artifact_origin")
      { header_frame := ("cam"), fields := ["x"], is_bigendian := false, point_step := 1,
        row_step := 2, is_dense := false, height := 1, width := 2, data := [5, 6] }
      { artifact_to_report := { type := ArtifactType.TYPE_PHONE
                                location := { x := F.fin 4, y := F.fin 4, z := F.fin 4 } }
        have_an_artifact_to_report := false }
      [{ Class := ("Drill"), xmin := 0, ymin := 0, xmax := 1, ymax := 0 }]).state.have_an_artifact_to_report
      = true :=
  ⟨rfl, rfl⟩

/-- C6 (amended): when the frame transform fails for one bounding box, the
exception escapes `ProcessDetection` uncaught: processing of that box and of
every later box in the same set is aborted (state updates of earlier boxes
persist), and no log is produced for the failing box. -/
theorem processDetection_tf_failure_aborts_rest
    (decode : PointCloud → List P3) (tf : PoseStamped → String → Except String PoseStamped)
    (tts : PoseStamped → String → String → TransformStamped)
    (camera_frame object_frame artifact_origin_frame : String)
    (cloud_msg : PointCloud) (st : RState) (pre post : List BoundingBox)
    (box : BoundingBox) (e : String)
    (hpre : (ProcessDetection decode tf tts camera_frame object_frame artifact_origin_frame
      cloud_msg st pre).pipelineAborted = false)
    (hbox : tf (GetCentroid decode camera_frame (CropPointCloud cloud_msg box))
      artifact_origin_frame = Except.error e) :
    ProcessDetection decode tf tts camera_frame object_frame artifact_origin_frame
      cloud_msg st (pre ++ box :: post)
    = { state := (ProcessDetection decode tf tts camera_frame object_frame
          artifact_origin_frame cloud_msg st pre).state
        logs := (ProcessDetection decode tf tts camera_frame object_frame
          artifact_origin_frame cloud_msg st pre).logs
        pipelineAborted := true } := by
  induction pre generalizing st with
  | nil => simp [ProcessDetection, hbox]
  | cons b pre' ih =>
    cases htfb : tf (GetCentroid decode camera_frame (CropPointCloud cloud_msg b))
      artifact_origin_frame with
    | error eb => simp [ProcessDetection, htfb] at hpre
    | ok sp =>
      simp only [List.cons_append, List.append_eq, ProcessDetection, htfb] at hpre ⊢
      rw [ih _ hpre]

/-- Witness for `processDetection_tf_failure_aborts_rest` at a concrete
input (empty lists before and after the failing box, a transform oracle that always fails). -/
theorem processDetection_tf_failure_aborts_rest_witness :
    ((ProcessDetection (fun _ => []) (fun _ _ => Except.error ("no transform chain"))
      (fun _ _ _ => { child_frame_id := ("cf") }) ("cam") ("obj") ("artifact_origin")
      { header_frame := ("cam"), fields := ["x"], is_bigendian := false, point_step := 1,
        row_step := 1, is_dense := false, height := 1, width := 1, data := [0] }
      { artifact_to_report := { type := ArtifactType.TYPE_BACKPACK
                                location := { x := F.fin 0, y := F.fin 0, z := F.fin 0 } }
        have_an_artifact_to_report := false }
      []).pipelineAborted = false) ∧
    ProcessDetection (fun _ => []) (fun _ _ => Except.error ("no transform chain"))
      (fun _ _ _ => { child_frame_id := ("cf") }) ("cam") ("obj") ("artifact_origin")
      { header_frame := ("cam"), fields := ["x"], is_bigendian := false, point_step := 1,
        row_step := 1, is_dense := false, height := 1, width := 1, data := [0] }
      { artifact_to_report := { type := ArtifactType.TYPE_BACKPACK
                                location := { x := F.fin 0, y := F.fin 0, z := F.fin 0 } }
        have_an_artifact_to_report := false }
      ([] ++ { Class := ("Drill"), xmin := 0, ymin := 0, xmax := 0, ymax := 0 } :: [])
    = { state := (ProcessDetection (fun _ => []) (fun _ _ => Except.error ("no transform chain"))
          (fun _ _ _ => { child_frame_id := ("cf") }) ("cam") ("obj") ("artifact_origin")
          { header_frame := ("cam"), fields := ["x"], is_bigendian := false, point_step := 1,
            row_step := 1, is_dense := false, height := 1, width := 1, data := [0] }
          { artifact_to_report := { type := ArtifactType.TYPE_BACKPACK
                                    location := { x := F.fin 0, y := F.fin 0, z := F.fin 0 } }
            have_an_artifact_to_report := false }
          []).state
        logs := (ProcessDetection (fun _ => []) (fun _ _ => Except.error ("no transform chain"))
          (fun _ _ _ => { child_frame_id := ("cf") }) ("cam") ("obj") ("artifact_origin")
          { header_frame := ("cam"), fields := ["x"], is_bigendian := false, point_step := 1,
            row_step := 1, is_dense := false, height := 1, width := 1, data := [0] }
          { artifact_to_report := { type := ArtifactType.TYPE_BACKPACK
                                    location := { x := F.fin 0, y := F.fin 0, z := F.fin 0 } }
            have_an_artifact_to_report := false }
          []).logs
        pipelineAborted := true } :=
  ⟨rfl,
    processDetection_tf_failure_aborts_rest (fun _ => [])
      (fun _ _ => Except.error ("no transform chain"))
      (fun _ _ _ => { child_frame_id := ("cf") }) ("cam") ("obj") ("artifact_origin")
      { header_frame := ("cam"), fields := ["x"], is_bigendian := false, point_step := 1,
        row_step := 1, is_dense := false, height := 1, width := 1, data := [0] }
      { artifact_to_report := { type := ArtifactType.TYPE_BACKPACK
                                location := { x := F.fin 0, y := F.fin 0, z := F.fin 0 } }
        have_an_artifact_to_report := false }
      [] [] { Class := ("Drill"), xmin := 0, ymin := 0, xmax := 0, ymax := 0 }
      ("no transform chain") rfl rfl⟩

/-- C5 counterexample: the claim says a box whose cropped cloud has no
finite points leads to a signalled error and a dropped detection, and in
particular that no artifact with location `(0,0,0)` is stored.  Here the
single decoded point is `(+inf, 0, 0)`, so no point qualifies; `GetCentroid`
silently yields `(0,0,0)`, the "Drill" detection is processed anyway, and an
artifact with location `(0,0,0)` is stored with the pending flag set. -/
theorem processDetection_zero_centroid_stored_cex :
    ProcessDetection (fun _ => [{ x := F.pinf, y := F.fin 0, z := F.fin 0 }])
      (fun p _ => Except.ok p)
      (fun _ _ _ => { child_frame_id := ("cf") }) ("cam") ("obj") ("artifact_origin")
      { header_frame := ("cam"), fields := ["x"], is_bigendian := false, point_step := 1,
        row_step := 1, is_dense := false, height := 1, width := 1, data := [7] }
      { artifact_to_report := { type := ArtifactType.TYPE_BACKPACK
                                location := { x := F.fin 9, y := F.fin 9, z := F.fin 9 } }
        have_an_artifact_to_report := false }
      [{ Class := ("Drill"), xmin := 0, ymin := 0, xmax := 0, ymax := 0 }]
    = { state := { artifact_to_report := { type := ArtifactType.TYPE_DRILL
                                           location := { x := F.fin 0, y := F.fin 0, z := F.fin 0 } }
                   have_an_artifact_to_report := true }
        logs := ["Detected a drill!"], pipelineAborted := false } :=
  rfl

/-! ## Claims about `CropPointCloud` (C1, C8) -/

/-- C1: for an in-range bounding box on a well-formed structured cloud
(`row_step = width * point_step`, `data` of length `height * row_step`),
`CropPointCloud` produces a cropped cloud of width `xmax-xmin+1`, height
`ymax-ymin+1`, the original `point_step`, buffer length
`width * height * point_step` (of the cropped cloud), and — in row-major
order matching the original row/column order — the point at cropped pixel
`(k, j)` is byte-for-byte the original point at pixel
`(xmin + k, ymin + j)`. -/
theorem cropPointCloud_in_range_correct (pc : PointCloud) (bb : BoundingBox)
    (hx0 : bb.xmin ≤ bb.xmax) (hx1 : bb.xmax < pc.width)
    (hy0 : bb.ymin ≤ bb.ymax) (hy1 : bb.ymax < pc.height)
    (hrs : pc.row_step = pc.width * pc.point_step)
    (hlen : pc.data.length = pc.height * pc.row_step) :
    (CropPointCloud pc bb).width = bb.xmax - bb.xmin + 1 ∧
    (CropPointCloud pc bb).height = bb.ymax - bb.ymin + 1 ∧
    (CropPointCloud pc bb).point_step = pc.point_step ∧
    (CropPointCloud pc bb).data.length
      = (CropPointCloud pc bb).width * (CropPointCloud pc bb).height
        * (CropPointCloud pc bb).point_step ∧
    ∀ j k, j ≤ bb.ymax - bb.ymin → k ≤ bb.xmax - bb.xmin →
      pointAt (CropPointCloud pc bb) k j = pointAt pc (bb.xmin + k) (bb.ymin + j) := by
  have hcw : bb.xmax - bb.xmin + 1 = bb.xmax + 1 - bb.xmin := by omega
  have hch : bb.ymax - bb.ymin + 1 = bb.ymax + 1 - bb.ymin := by omega
  have hdata : (CropPointCloud pc bb).data
      = (List.range' bb.ymin (bb.ymax + 1 - bb.ymin)).flatMap (fun r =>
          (List.range' bb.xmin (bb.xmax + 1 - bb.xmin)).flatMap (fun c =>
            (List.range' (r * pc.row_step + c * pc.point_step) pc.point_step).map
              (fun i => pc.data.getD i 0))) := by
    simp only [CropPointCloud, cropReadIndices, List.map_flatMap]
  have hblk : ∀ r c, ((List.range' (r * pc.row_step + c * pc.point_step) pc.point_step).map
      (fun i => pc.data.getD i 0)).length = pc.point_step := by
    intro r c
    simp
  have hrow : ∀ r ∈ List.range' bb.ymin (bb.ymax + 1 - bb.ymin),
      ((List.range' bb.xmin (bb.xmax + 1 - bb.xmin)).flatMap (fun c =>
        (List.range' (r * pc.row_step + c * pc.point_step) pc.point_step).map
          (fun i => pc.data.getD i 0))).length
      = (bb.xmax + 1 - bb.xmin) * pc.point_step := by
    intro r _
    rw [length_flatMap_const _ _ pc.point_step (fun c _ => hblk r c), List.length_range']
  have hlen2 : (CropPointCloud pc bb).data.length
      = (bb.ymax + 1 - bb.ymin) * ((bb.xmax + 1 - bb.xmin) * pc.point_step) := by
    rw [hdata, length_flatMap_const _ _ _ hrow, List.length_range']
  refine ⟨rfl, rfl, rfl, ?_, ?_⟩
  · rw [hlen2]
    simp only [CropPointCloud]
    rw [hcw, hch]
    ring
  · intro j k hj hk
    show ((CropPointCloud pc bb).data.drop
        (j * ((bb.xmax - bb.xmin + 1) * pc.point_step) + k * pc.point_step)).take pc.point_step
      = pointAt pc (bb.xmin + k) (bb.ymin + j)
    rw [hdata, hcw, ← List.drop_drop]
    rw [drop_flatMap_const (List.range' bb.ymin (bb.ymax + 1 - bb.ymin))
      (fun r => (List.range' bb.xmin (bb.xmax + 1 - bb.xmin)).flatMap (fun c =>
        (List.range' (r * pc.row_step + c * pc.point_step) pc.point_step).map
          (fun i => pc.data.getD i 0)))
      ((bb.xmax + 1 - bb.xmin) * pc.point_step) hrow j
      (by rw [List.length_range']; omega)]
    have hrowsdrop : (List.range' bb.ymin (bb.ymax + 1 - bb.ymin)).drop j
        = (bb.ymin + j) :: (List.range' bb.ymin (bb.ymax + 1 - bb.ymin)).drop (j + 1) := by
      rw [List.drop_eq_getElem_cons (by rw [List.length_range']; omega)]
      congr 1
      simp [List.getElem_range']
    rw [hrowsdrop, List.flatMap_cons]
    rw [List.drop_append_eq_append_drop]
    have hlen_row : ((List.range' bb.xmin (bb.xmax + 1 - bb.xmin)).flatMap (fun c =>
        (List.range' ((bb.ymin + j) * pc.row_step + c * pc.point_step) pc.point_step).map
          (fun i => pc.data.getD i 0))).length = (bb.xmax + 1 - bb.xmin) * pc.point_step :=
      hrow _ (by rw [List.mem_range'_1]; omega)
    rw [List.take_append_of_le_length (by
      rw [List.length_drop, hlen_row, ← Nat.sub_mul]
      have h2 : 0 < bb.xmax + 1 - bb.xmin - k := by omega
      calc pc.point_step = 1 * pc.point_step := (one_mul _).symm
        _ ≤ (bb.xmax + 1 - bb.xmin - k) * pc.point_step := Nat.mul_le_mul h2 le_rfl)]
    rw [drop_flatMap_const (List.range' bb.xmin (bb.xmax + 1 - bb.xmin))
      (fun c => (List.range' ((bb.ymin + j) * pc.row_step + c * pc.point_step)
        pc.point_step).map (fun i => pc.data.getD i 0))
      pc.point_step (fun c _ => hblk (bb.ymin + j) c) k
      (by rw [List.length_range']; omega)]
    have hcolsdrop : (List.range' bb.xmin (bb.xmax + 1 - bb.xmin)).drop k
        = (bb.xmin + k) :: (List.range' bb.xmin (bb.xmax + 1 - bb.xmin)).drop (k + 1) := by
      rw [List.drop_eq_getElem_cons (by rw [List.length_range']; omega)]
      congr 1
      simp [List.getElem_range']
    rw [hcolsdrop, List.flatMap_cons]
    rw [List.take_left' (hblk (bb.ymin + j) (bb.xmin + k))]
    have hbound : (bb.ymin + j) * pc.row_step + (bb.xmin + k) * pc.point_step
        + pc.point_step ≤ pc.data.length := by
      have hy2 : bb.ymin + j + 1 ≤ pc.height := by omega
      have hx2 : bb.xmin + k + 1 ≤ pc.width := by omega
      calc (bb.ymin + j) * pc.row_step + (bb.xmin + k) * pc.point_step + pc.point_step
          = (bb.ymin + j) * pc.row_step + (bb.xmin + k + 1) * pc.point_step := by ring
        _ ≤ (bb.ymin + j) * pc.row_step + pc.width * pc.point_step :=
            Nat.add_le_add_left (Nat.mul_le_mul hx2 le_rfl) _
        _ = (bb.ymin + j) * pc.row_step + pc.row_step := by rw [hrs]
        _ = (bb.ymin + j + 1) * pc.row_step := by ring
        _ ≤ pc.height * pc.row_step := Nat.mul_le_mul hy2 le_rfl
        _ = pc.data.length := hlen.symm
    rw [map_getD_range' pc.data 0 _ _ hbound]
    rfl

/-- Witness for `cropPointCloud_in_range_correct` on a concrete 2x2 cloud
with the full-frame bounding box. -/
theorem cropPointCloud_in_range_correct_witness :
    (0 ≤ 1 ∧ 1 < 2 ∧ (2 : ℕ) = 2 * 1 ∧ (4 : ℕ) = 2 * 2) ∧
    ((CropPointCloud
      { header_frame := ("cam"), fields := ["x"], is_bigendian := false, point_step := 1,
        row_step := 2, is_dense := true, height := 2, width := 2, data := [10, 11, 12, 13] }
      { Class := ("Survivor"), xmin := 0, ymin := 0, xmax := 1, ymax := 1 }).width = 1 - 0 + 1 ∧
    (CropPointCloud
      { header_frame := ("cam"), fields := ["x"], is_bigendian := false, point_step := 1,
        row_step := 2, is_dense := true, height := 2, width := 2, data := [10, 11, 12, 13] }
      { Class := ("Survivor"), xmin := 0, ymin := 0, xmax := 1, ymax := 1 }).height = 1 - 0 + 1 ∧
    (CropPointCloud
      { header_frame := ("cam"), fields := ["x"], is_bigendian := false, point_step := 1,
        row_step := 2, is_dense := true, height := 2, width := 2, data := [10, 11, 12, 13] }
      { Class := ("Survivor"), xmin := 0, ymin := 0, xmax := 1, ymax := 1 }).point_step = 1 ∧
    (CropPointCloud
      { header_frame := ("cam"), fields := ["x"], is_bigendian := false, point_step := 1,
        row_step := 2, is_dense := true, height := 2, width := 2, data := [10, 11, 12, 13] }
      { Class := ("Survivor"), xmin := 0, ymin := 0, xmax := 1, ymax := 1 }).data.length
      = (CropPointCloud
      { header_frame := ("cam"), fields := ["x"], is_bigendian := false, point_step := 1,
        row_step := 2, is_dense := true, height := 2, width := 2, data := [10, 11, 12, 13] }
      { Class := ("Survivor"), xmin := 0, ymin := 0, xmax := 1, ymax := 1 }).width
        * (CropPointCloud
      { header_frame := ("cam"), fields := ["x"], is_bigendian := false, point_step := 1,
        row_step := 2, is_dense := true, height := 2, width := 2, data := [10, 11, 12, 13] }
      { Class := ("Survivor"), xmin := 0, ymin := 0, xmax := 1, ymax := 1 }).height
        * (CropPointCloud
      { header_frame := ("cam"), fields := ["x"], is_bigendian := false, point_step := 1,
        row_step := 2, is_dense := true, height := 2, width := 2, data := [10, 11, 12, 13] }
      { Class := ("Survivor"), xmin := 0, ymin := 0, xmax := 1, ymax := 1 }).point_step ∧
    ∀ j k, j ≤ 1 - 0 → k ≤ 1 - 0 →
      pointAt (CropPointCloud
        { header_frame := ("cam"), fields := ["x"], is_bigendian := false, point_step := 1,
          row_step := 2, is_dense := true, height := 2, width := 2, data := [10, 11, 12, 13] }
        { Class := ("Survivor"), xmin := 0, ymin := 0, xmax := 1, ymax := 1 }) k j
      = pointAt
        { header_frame := ("cam"), fields := ["x"], is_bigendian := false, point_step := 1,
          row_step := 2, is_dense := true, height := 2, width := 2, data := [10, 11, 12, 13] }
        (0 + k) (0 + j)) :=
  ⟨by decide,
    cropPointCloud_in_range_correct
      { header_frame := ("cam"), fields := ["x"], is_bigendian := false, point_step := 1,
        row_step := 2, is_dense := true, height := 2, width := 2, data := [10, 11, 12, 13] }
      { Class := ("Survivor"), xmin := 0, ymin := 0, xmax := 1, ymax := 1 }
      (by decide) (by decide) (by decide) (by decide) (by decide) (by decide)⟩

/-- C8 counterexample: the claim says an out-of-range bounding box makes
`CropPointCloud` fail loudly rather than return a cloud built from
out-of-range buffer reads.  On a 2x2 cloud with `ymax = 2 ≥ height`, the
code raises nothing: it returns a six-point cloud, and the copy loop's read
indices include positions past the end of the 4-byte buffer (the modelled
reads yield the UB placeholder 0). -/
theorem cropPointCloud_out_of_range_cex :
    (CropPointCloud
      { header_frame := ("cam"), fields := ["x"], is_bigendian := false, point_step := 1,
        row_step := 2, is_dense := true, height := 2, width := 2, data := [10, 11, 12, 13] }
      { Class := ("Backpack"), xmin := 0, ymin := 0, xmax := 1, ymax := 2 }).data
      = [10, 11, 12, 13, 0, 0] ∧
    ¬ ∀ i ∈ cropReadIndices
      { header_frame := ("cam"), fields := ["x"], is_bigendian := false, point_step := 1,
        row_step := 2, is_dense := true, height := 2, width := 2, data := [10, 11, 12, 13] }
      { Class := ("Backpack"), xmin := 0, ymin := 0, xmax := 1, ymax := 2 },
      i < (4 : ℕ) :=
  ⟨rfl, by decide⟩

/-- C8 (amended): `CropPointCloud` performs no bounds validation at all.
For any box with `ymin ≤ ymax`, `xmin ≤ xmax` and `ymax ≥ height` (on a
cloud with a positive point step and a buffer of the nominal
`height * row_step` bytes) it does not fail: it still returns a buffer of
`(ymax-ymin+1) * (xmax-xmin+1) * point_step` bytes, and the copy loop reads
at least one byte index at or past the end of the source buffer (undefined
behaviour), with no clamping and no error signalled. -/
theorem cropPointCloud_no_bounds_check (pc : PointCloud) (bb : BoundingBox)
    (hx0 : bb.xmin ≤ bb.xmax) (hy0 : bb.ymin ≤ bb.ymax) (hyh : pc.height ≤ bb.ymax)
    (hps : 0 < pc.point_step) (hlen : pc.data.length = pc.height * pc.row_step) :
    (CropPointCloud pc bb).data.length
      = (bb.ymax - bb.ymin + 1) * ((bb.xmax - bb.xmin + 1) * pc.point_step) ∧
    ∃ i ∈ cropReadIndices pc bb, pc.data.length ≤ i := by
  constructor
  · have hrow : ∀ r ∈ List.range' bb.ymin (bb.ymax + 1 - bb.ymin),
        ((List.range' bb.xmin (bb.xmax + 1 - bb.xmin)).flatMap (fun c =>
          List.range' (r * pc.row_step + c * pc.point_step) pc.point_step)).length
        = (bb.xmax + 1 - bb.xmin) * pc.point_step := by
      intro r _
      rw [length_flatMap_const _ _ pc.point_step (fun c _ => by rw [List.length_range']),
        List.length_range']
    have h1 : (CropPointCloud pc bb).data.length = (cropReadIndices pc bb).length := by
      simp [CropPointCloud]
    rw [h1, cropReadIndices, length_flatMap_const _ _ _ hrow, List.length_range',
      show bb.ymax + 1 - bb.ymin = bb.ymax - bb.ymin + 1 by omega,
      show bb.xmax + 1 - bb.xmin = bb.xmax - bb.xmin + 1 by omega]
  · refine ⟨bb.ymax * pc.row_step + bb.xmax * pc.point_step, ?_, ?_⟩
    · rw [cropReadIndices]
      refine List.mem_flatMap.mpr ⟨bb.ymax, ?_, List.mem_flatMap.mpr ⟨bb.xmax, ?_, ?_⟩⟩
      · rw [List.mem_range'_1]
        omega
      · rw [List.mem_range'_1]
        omega
      · rw [List.mem_range'_1]
        omega
    · rw [hlen]
      calc pc.height * pc.row_step ≤ bb.ymax * pc.row_step := Nat.mul_le_mul hyh le_rfl
        _ ≤ bb.ymax * pc.row_step + bb.xmax * pc.point_step := Nat.le_add_right _ _

/-- Witness for `cropPointCloud_no_bounds_check` on a concrete 2x2 cloud and
a box whose `ymax` exceeds the cloud height. -/
theorem cropPointCloud_no_bounds_check_witness :
    (0 ≤ 1 ∧ 0 ≤ 2 ∧ 2 ≤ 2 ∧ 0 < 1 ∧ (4 : ℕ) = 2 * 2) ∧
    ((CropPointCloud
      { header_frame := ("cam"), fields := ["x"], is_bigendian := false, point_step := 1,
        row_step := 2, is_dense := true, height := 2, width := 2, data := [10, 11, 12, 13] }
      { Class := ("Drill"), xmin := 0, ymin := 0, xmax := 1, ymax := 2 }).data.length
      = (2 - 0 + 1) * ((1 - 0 + 1) * 1) ∧
    ∃ i, i ∈ cropReadIndices
      { header_frame := ("cam"), fields := ["x"], is_bigendian := false, point_step := 1,
        row_step := 2, is_dense := true, height := 2, width := 2, data := [10, 11, 12, 13] }
      { Class := ("Drill"), xmin := 0, ymin := 0, xmax := 1, ymax := 2 } ∧
      ({ header_frame := ("cam"), fields := ["x"], is_bigendian := false, point_step := 1,
         row_step := 2, is_dense := true, height := 2, width := 2,
         data := [10, 11, 12, 13] } : PointCloud).data.length ≤ i) :=
  ⟨by decide,
    cropPointCloud_no_bounds_check
      { header_frame := ("cam"), fields := ["x"], is_bigendian := false, point_step := 1,
        row_step := 2, is_dense := true, height := 2, width := 2, data := [10, 11, 12, 13] }
      { Class := ("Drill"), xmin := 0, ymin := 0, xmax := 1, ymax := 2 }
      (by decide) (by decide) (by decide) (by decide) (by decide)⟩
